import Mathlib

/-!
Shallow embedding of the Sentiment-Analysis-App backend core
(src/backend/services/analysis_service.py, src/backend/main.py,
src/backend/models/analysis_model.py,
src/backend/repositories/analysis_repository.py).

Python strings are modelled as Lean String (lists of characters, ASCII
scope), floats as exact rationals, fallible calls as Option, and the
network / HTML parser / AI models as explicit function parameters.
-/

/-! ## Python string primitives -/

/-- Whitespace characters recognised by Python str.strip / str.split / regex \s
(ASCII scope). -/
def isPySpace (c : Char) : Bool :=
  c = ' ' || c = '\t' || c = '\n' || c = '\r' || c = '\x0b' || c = '\x0c'

/-- Python str.strip(): drop leading and trailing whitespace. -/
def pyStrip (s : String) : String :=
  String.mk (((s.data.dropWhile isPySpace).reverse.dropWhile isPySpace).reverse)

/-- Python str.lower() (ASCII scope). -/
def lowerStr (s : String) : String :=
  String.mk (s.data.map Char.toLower)

/-- Python str.upper() (ASCII scope). -/
def upperStr (s : String) : String :=
  String.mk (s.data.map Char.toUpper)

/-- Python substring containment: needle occurs contiguously in hay. -/
def listOccurs (needle : List Char) : List Char → Bool
  | [] => decide (needle = [])
  | c :: rest => needle.isPrefixOf (c :: rest) || listOccurs needle rest

/-- Python s[:n] slicing on characters. -/
def takeChars (s : String) (n : Nat) : String :=
  String.mk (s.data.take n)

/-- Helper for whitespace collapsing: the Bool records whether the previous
kept character came from a whitespace run. -/
def normWsAux : Bool → List Char → List Char
  | _, [] => []
  | prevSpace, c :: cs =>
      if isPySpace c then
        if prevSpace then normWsAux true cs else ' ' :: normWsAux true cs
      else c :: normWsAux false cs

/-- Python re.sub of one-or-more whitespace with a single space. -/
def normWs (cs : List Char) : List Char :=
  normWsAux false cs

/-- Helper counting maximal non-whitespace runs; the Bool records whether we
are inside a word. -/
def countWordsAux : Bool → List Char → Nat
  | _, [] => 0
  | inWord, c :: cs =>
      if isPySpace c then countWordsAux false cs
      else (if inWord then 0 else 1) + countWordsAux true cs

/-- Python len(text.split()): number of whitespace-separated words. -/
def wordCount (s : String) : Nat :=
  countWordsAux false s.data

/-- Characters kept by the cleanup regex: word characters, whitespace and the
punctuation whitelist (period, comma, semicolon, colon, bang, question mark,
hyphen, apostrophe, double quote, parentheses). -/
def keepChar (c : Char) : Bool :=
  c.isAlphanum || c = '_' || isPySpace c ||
  c ∈ ['.', ',', ';', ':', '!', '?', '-', Char.ofNat 39, Char.ofNat 34, '(', ')']

/-- Body cleanup of extract_content: collapse whitespace runs to single
spaces, then strip characters outside the whitelist. -/
def cleanText (s : String) : String :=
  String.mk ((normWs s.data).filter keepChar)

/-! ## Sentiment breakdown (AIService, analysis_model) -/

/-- Canonical sentiment values of SentimentType in analysis_model.py. -/
inductive SentimentType where
  | positive
  | negative
  | neutral
deriving DecidableEq

/-- Three-way breakdown mapping of AIService, with one field per canonical
sentiment value. -/
structure Breakdown where
  positive : ℚ
  neutral : ℚ
  negative : ℚ
deriving DecidableEq

/-- AIService calculate-breakdown step (analysis_service.py lines 231-250),
with 0.6 and 0.4 as exact rationals. -/
def calculateBreakdown : SentimentType → ℚ → Breakdown
  | .positive, score => { positive := score, neutral := (1 - score) * (6/10), negative := (1 - score) * (4/10) }
  | .negative, score => { negative := score, neutral := (1 - score) * (6/10), positive := (1 - score) * (4/10) }
  | .neutral, _ => { neutral := 6/10, positive := 2/10, negative := 2/10 }

/-- Sum of the three breakdown values. -/
def Breakdown.total (b : Breakdown) : ℚ :=
  b.positive + b.neutral + b.negative

/-- Projection of the bucket belonging to a sentiment value. -/
def Breakdown.bucket (b : Breakdown) : SentimentType → ℚ
  | .positive => b.positive
  | .negative => b.negative
  | .neutral => b.neutral

/-- SentimentModel.validate_breakdown acceptance condition
(analysis_model.py lines 42-48): the validator lets a non-empty breakdown
through exactly when its total differs from 1 by at most 0.01. -/
def validateBreakdownAccepts (b : Breakdown) : Prop :=
  |b.total - 1| ≤ 1/100

/-- Raw classifier label vocabulary mapping of AIService.analyze_sentiment
(analysis_service.py lines 207-215): unrecognized labels default to neutral. -/
def mapLabel (lab : String) : SentimentType :=
  let u := upperStr lab
  if u = "POSITIVE" then .positive
  else if u = "NEGATIVE" then .negative
  else if u = "LABEL_0" then .negative
  else if u = "LABEL_1" then .positive
  else .neutral

/-- SentimentModel record assembled by AIService.analyze_sentiment. -/
structure SentimentModelR where
  sentiment : SentimentType
  score : ℚ
  confidence : ℚ
  breakdown : Breakdown
deriving DecidableEq

/-- AIService.analyze_sentiment result construction from the raw classifier
output (label, score) (analysis_service.py lines 215-225). -/
def analyzeSentimentFrom (label : String) (score : ℚ) : SentimentModelR :=
  let st := mapLabel label
  { sentiment := st, score := score, confidence := score, breakdown := calculateBreakdown st score }

/-! ## DOM model and the extractor (WebScrapingService.extract_content) -/

/-- HTML node: a text node or an element with tag name, class list,
attribute list and children. -/
inductive Node where
  | text (s : String)
  | elem (tag : String) (classes : List String) (attrs : List (String × String)) (children : List Node)

mutual

/-- BeautifulSoup get_text(strip=True): concatenation of the stripped text of
every descendant string, in document order. -/
def getTextS : Node → String
  | .text s => pyStrip s
  | .elem _ _ _ cs => getTextList cs

/-- Text of a forest of nodes, in document order. -/
def getTextList : List Node → String
  | [] => ""
  | n :: ns => getTextS n ++ getTextList ns

end

/-- CSS selectors used by extract_content: a tag name, a class name, an
attribute equality, or an id. -/
inductive Selector where
  | tag (t : String)
  | cls (c : String)
  | attrEq (k v : String)
  | idIs (v : String)

/-- Selector match on a single element node. -/
def matchesSel (s : Selector) : Node → Bool
  | .text _ => false
  | .elem tag classes attrs _ =>
      match s with
      | .tag t => tag = t
      | .cls c => classes.contains c
      | .attrEq k v => attrs.contains (k, v)
      | .idIs v => attrs.contains ("id", v)

mutual

/-- All nodes (the node itself and its descendants) matching a selector, in
document order, as BeautifulSoup select does. -/
def selectNode (s : Selector) : Node → List Node
  | .text t => (fun _ => []) t
  | .elem tag classes attrs cs =>
      (if matchesSel s (.elem tag classes attrs cs) then [Node.elem tag classes attrs cs] else []) ++
      selectList s cs

/-- All matches of a selector within a forest, in document order. -/
def selectList (s : Selector) : List Node → List Node
  | [] => []
  | n :: ns => selectNode s n ++ selectList s ns

end

/-- BeautifulSoup select_one / find on a document: the first match in
document order. -/
def selectOneList (s : Selector) (doc : List Node) : Option Node :=
  (selectList s doc).head?

/-- Children of a node. -/
def childNodes : Node → List Node
  | .text _ => []
  | .elem _ _ _ cs => cs

/-- element.find_all(tag): matching descendants of a node, the node itself
excluded. -/
def descendantsTag (t : String) (n : Node) : List Node :=
  selectList (.tag t) (childNodes n)

/-- Tags decomposed before extraction (analysis_service.py line 85). -/
def unwantedTags : List String :=
  ["script", "style", "nav", "header", "footer", "aside", "iframe"]

mutual

/-- Removal of the unwanted elements inside one node, as
soup(...).decompose() does below it. -/
def cleanNode : Node → Node
  | .text s => .text s
  | .elem t c a cs => .elem t c a (cleanList cs)
termination_by structural n => n

/-- Removal of the unwanted elements (and their subtrees) everywhere in a
forest, as soup(...).decompose() does. -/
def cleanList : List Node → List Node
  | [] => []
  | .text s :: ns => .text s :: cleanList ns
  | .elem t c a cs :: ns =>
      if t ∈ unwantedTags then cleanList ns
      else cleanNode (.elem t c a cs) :: cleanList ns
termination_by structural l => l

end

/-- Stripped text of an optional node, empty when absent, so that the Python
truthiness test on (element and element.get_text(strip=True)) is one
emptiness test. -/
def textOfOpt : Option Node → String
  | none => ""
  | some n => getTextS n

/-- Fallback heading selectors of extract_content line 98, in order. -/
def fallbackSelectors : List Selector :=
  [.tag "h2", .tag "h3", .cls "title", .cls "headline", .attrEq "data-testid" "headline"]

/-- Third heading strategy: first selector in the list whose first match has
non-empty stripped text; the sentinel if none does. -/
def headingFromFallback (doc : List Node) : List Selector → String
  | [] => "No Heading"
  | s :: rest =>
      let t := textOfOpt (selectOneList s doc)
      if t = "" then headingFromFallback doc rest else t

/-- Heading selection of extract_content (lines 88-102): first h1 with
non-empty text, else the title element, else the fallback selector list,
else the sentinel. -/
def selectHeading (doc : List Node) : String :=
  let t1 := textOfOpt (selectOneList (.tag "h1") doc)
  if t1 ≠ "" then t1
  else
    let t2 := textOfOpt (selectOneList (.tag "title") doc)
    if t2 ≠ "" then t2
    else headingFromFallback doc fallbackSelectors

/-- Article container selectors of extract_content lines 106-109, in order. -/
def articleSelectors : List Selector :=
  [.tag "article", .attrEq "role" "main", .cls "article-content", .cls "content",
   .cls "story-body", .cls "entry-content", .cls "post-content",
   .idIs "article-body", .cls "article-body"]

/-- Stripped texts of all paragraph descendants of a container. -/
def pTexts (a : Node) : List String :=
  (descendantsTag "p" a).map getTextS

/-- The non-empty stripped paragraph texts of a container, in order. -/
def nonemptyPTexts (a : Node) : List String :=
  (pTexts a).filter (fun t => t ≠ "")

/-- Inner loop of the article strategy: scan the matches of one selector and
stop at the first container holding at least two paragraph elements,
yielding its non-empty paragraph texts. -/
def tryArticles : List Node → Option (List String)
  | [] => none
  | a :: rest =>
      if 2 ≤ (descendantsTag "p" a).length then some (nonemptyPTexts a)
      else tryArticles rest

/-- Outer loop of the article strategy: first selector whose winning
container contributed at least one non-empty paragraph text. -/
def bodyFromSelectors (doc : List Node) : List Selector → List String
  | [] => []
  | s :: rest =>
      match tryArticles (selectList s doc) with
      | some parts => if parts = [] then bodyFromSelectors doc rest else parts
      | none => bodyFromSelectors doc rest

/-- Body part selection of extract_content (lines 104-130): article
containers first, then all paragraphs longer than 20 characters, then div
elements with more than 100 characters and more than 10 words. -/
def extractBodyParts (doc : List Node) : List String :=
  let p1 := bodyFromSelectors doc articleSelectors
  if p1 ≠ [] then p1
  else
    let p2 := ((selectList (.tag "p") doc).map getTextS).filter
      (fun t => t ≠ "" && 20 < t.length)
    if p2 ≠ [] then p2
    else ((selectList (.tag "div") doc).map getTextS).filter
      (fun t => 100 < t.length && 10 < wordCount t)

/-- Heading length cap of extract_content lines 139-140. -/
def truncateHeading (h : String) : String :=
  if 200 < h.length then takeChars h 200 ++ "..." else h

/-- Result of extract_content: heading and cleaned body. -/
structure Extracted where
  heading : String
  body : String
deriving Repr

/-- WebScrapingService.extract_content (analysis_service.py lines 80-142)
over an already parsed document. -/
def extractContent (docRaw : List Node) : Extracted :=
  let doc := cleanList docRaw
  let heading := selectHeading doc
  let body := cleanText (String.intercalate " " (extractBodyParts doc))
  { heading := truncateHeading heading, body := body }

/-! ## Fetcher (WebScrapingService.fetch_content) -/

/-- One fetch configuration (analysis_service.py lines 32-36). -/
structure FetchApproach where
  ssl : Bool
  timeout : Nat
  verifySsl : Bool
  forceHttp : Bool
deriving DecidableEq

/-- The fixed ordered configuration list: strict TLS 15s, relaxed TLS 20s,
no TLS with scheme downgrade 15s. -/
def approaches : List FetchApproach :=
  [{ ssl := true, timeout := 15, verifySsl := true, forceHttp := false },
   { ssl := true, timeout := 20, verifySsl := false, forceHttp := false },
   { ssl := false, timeout := 15, verifySsl := true, forceHttp := true }]

/-- Outcome of one network attempt: an exception (timeout, SSL or connection
error) or an HTTP response with status and body. -/
inductive AttemptOutcome where
  | exc
  | response (status : Nat) (body : String)

/-- URL actually requested under a configuration: the https scheme is
downgraded to http when the configuration forces it. -/
def currentUrl (url : String) (a : FetchApproach) : String :=
  if !a.ssl && a.forceHttp && "https://".isPrefixOf url then
    "http://" ++ String.mk (url.data.drop 8)
  else url

/-- HTML structural markers looked for in the lowercased body (line 69). -/
def htmlMarkers : List String :=
  ["<html", "<body", "<article", "<div"]

/-- Successful status set of fetch_content line 67. -/
def statusOkSet : List Nat := [200, 201, 202]

/-- Adequacy test on a body (line 69): longer than 500 characters and
holding at least one marker, case-insensitively. -/
def contentAcceptable (content : String) : Bool :=
  500 < content.length &&
  htmlMarkers.any (fun m => listOccurs m.data (lowerStr content).data)

/-- Acceptance decision of one attempt (lines 67-71): the body is returned
exactly when the status is successful and the body is adequate; an exception
or any other outcome yields nothing. -/
def acceptedBody : AttemptOutcome → Option String
  | .exc => none
  | .response st body =>
      if st ∈ statusOkSet then
        if contentAcceptable body then some body else none
      else none

/-- Attempt loop of fetch_content over a configuration list, also counting
the attempts made; the network is an explicit function from configuration
and requested URL to an outcome. -/
def fetchLoop (net : FetchApproach → String → AttemptOutcome) (url : String) :
    List FetchApproach → Option String × Nat
  | [] => (none, 0)
  | a :: rest =>
      match acceptedBody (net a (currentUrl url a)) with
      | some body => (some body, 1)
      | none =>
          let r := fetchLoop net url rest
          (r.1, r.2 + 1)

/-- WebScrapingService.fetch_content (analysis_service.py lines 30-78):
try the fixed configuration list in order, never raising; the second
component counts network attempts. -/
def fetchContent (net : FetchApproach → String → AttemptOutcome) (url : String) :
    Option String × Nat :=
  fetchLoop net url approaches

/-! ## URL validation (main.py analyze_article) and the coordinator -/

/-- Characters allowed in a URL scheme after the leading letter. -/
def isSchemeChar (c : Char) : Bool :=
  c.isAlphanum || c = '+' || c = '-' || c = '.'

/-- Parsed URL: scheme and network location, as used by the validation. -/
structure ParsedUrl where
  scheme : String
  netloc : String
deriving DecidableEq

/-- Scheme part of urllib.parse.urlparse: the lowercased prefix before the
first colon when that prefix is a well-formed scheme, and the remainder. -/
def schemeSplit (url : String) : String × String :=
  let cs := url.data
  match cs.findIdx? (fun c => c = ':') with
  | some i =>
      if 0 < i ∧ (cs.headD ' ').isAlpha ∧ (cs.take i).all isSchemeChar then
        (String.mk ((cs.take i).map Char.toLower), String.mk (cs.drop (i + 1)))
      else ("", url)
  | none => ("", url)

/-- Network location of urllib.parse.urlparse: the text after a leading
double slash up to the first slash, question mark or hash. -/
def netlocOf (rest : String) : String :=
  let cs := rest.data
  if cs.take 2 = ['/', '/'] then
    String.mk ((cs.drop 2).takeWhile (fun c => ¬ (c = '/' ∨ c = '?' ∨ c = '#')))
  else ""

/-- urllib.parse.urlparse restricted to the fields the validation reads. -/
def urlparse (url : String) : ParsedUrl :=
  let p := schemeSplit url
  { scheme := p.1, netloc := netlocOf p.2 }

/-- Terminal outcome of one pipeline run, following the error taxonomy:
validation failure, fetch failure, content failure, AI failure, or a
successful record. -/
inductive AnalyzeOutcome where
  | validationError
  | fetchError
  | contentError
  | aiError
  | ok (heading summary label : String) (score : ℚ)
deriving DecidableEq

/-- Coordinator steps after extraction (main.py lines 372-458, analysis
mirror at analysis_service.py lines 271-283): gate on the trimmed body,
build the bounded analysis window, widen it with the heading when too short,
then call the external summarizer and classifier. -/
def coordinateContent (summ : String → Option String)
    (clf : String → Option (String × ℚ)) (heading body : String) : AnalyzeOutcome :=
  if pyStrip body = "" then .contentError
  else if (pyStrip body).length < 50 then .contentError
  else
    let w0 := takeChars body 1000
    let w := if (pyStrip w0).length < 50 then takeChars (heading ++ ". " ++ body) 1000 else w0
    match summ w, clf w with
    | some s, some lr => .ok heading s lr.1 lr.2
    | _, _ => .aiError

/-- analyze_article endpoint (main.py lines 326-480) up to persistence:
validate the URL shape, fetch, extract, coordinate; the second component
counts network attempts made. The HTML parser, summarizer and classifier
are explicit collaborators. -/
def analyzeArticle (net : FetchApproach → String → AttemptOutcome)
    (parse : String → List Node) (summ : String → Option String)
    (clf : String → Option (String × ℚ)) (url : String) : AnalyzeOutcome × Nat :=
  let p := urlparse url
  if p.scheme = "" ∨ p.netloc = "" then (.validationError, 0)
  else
    match fetchContent net url with
    | (none, n) => (.fetchError, n)
    | (some html, n) =>
        let e := extractContent (parse html)
        (coordinateContent summ clf e.heading e.body, n)

/-! ## In-memory fallback store (AnalysisRepository.save_analysis) -/

/-- Record held by the in-memory fallback store: the article URL plus an
opaque payload standing for the rest of the analysis. -/
structure MemRecord where
  url : String
  payload : String
deriving DecidableEq

/-- Capacity of the in-memory store (analysis_repository.py line 18). -/
def maxMemoryItems : Nat := 50

/-- Memory branch of AnalysisRepository.save_analysis (lines 33-47), taken
while the database collection is unavailable: drop any record with the same
URL, insert the new record first, then cut back to capacity. -/
def saveMem (store : List MemRecord) (r : MemRecord) : List MemRecord :=
  let filtered := store.filter (fun a => a.url ≠ r.url)
  let inserted := r :: filtered
  if maxMemoryItems < inserted.length then inserted.take maxMemoryItems else inserted

/-- State of the in-memory store after a sequence of saves, starting from
the empty store the repository is constructed with. -/
def memStateAfter (rs : List MemRecord) : List MemRecord :=
  rs.foldl saveMem []

/-- Bucket left over once a non-neutral dominant bucket and the neutral
bucket are taken. -/
def oppositeOf : SentimentType → SentimentType
  | .positive => .negative
  | .negative => .positive
  | .neutral => .neutral

/-! ## Concrete instances used by witnesses and counterexamples -/

/-- Body of 49 characters for the content gate instance. -/
def wBody49 : String := String.mk (List.replicate 49 'a')

/-- Body of 50 characters for the content gate instance. -/
def wBody50 : String := String.mk (List.replicate 50 'a')

/-- Stub summarizer collaborator that always succeeds. -/
def wSumm : String → Option String := fun _ => some "summary"

/-- Stub classifier collaborator that always returns a positive label with
score 0.95. -/
def wClf : String → Option (String × ℚ) := fun _ => some ("POSITIVE", 95/100)

/-- Adequate response body: 501 characters opening with an html marker. -/
def wOkBody : String := "<html" ++ String.mk (List.replicate 496 'a')

/-- Heading text of 201 characters. -/
def wLongTitle : String := String.mk (List.replicate 201 'a')

/-- Document whose only heading source is a 201-character title. -/
def wDocLong : List Node := [.elem "title" [] [] [.text wLongTitle]]

/-- Document with both an h1 and a title. -/
def wDocH1 : List Node :=
  [.elem "h1" [] [] [.text "Main Headline"], .elem "title" [] [] [.text "Doc Title"]]

/-- Document with a title and no h1. -/
def wDocTitle : List Node := [.elem "title" [] [] [.text "Doc Title"]]

/-- Document whose only heading source is an h2. -/
def wDocH2 : List Node := [.elem "h2" [] [] [.text "Second Level"]]

/-- Document with no heading-bearing element at all. -/
def wDocPlain : List Node := [.elem "div" [] [] [.text "plain"]]

/-- Article holding two paragraph elements with only whitespace text. -/
def cexArticle : Node :=
  .elem "article" [] [] [.elem "p" [] [] [], .elem "p" [] [] [.text "   "]]

/-- Boilerplate of 21 words and more than 100 characters. -/
def cexBoiler : String :=
  "aaaa bbbb cccc dddd eeee ffff gggg hhhh iiii jjjj kkkk llll mmmm nnnn oooo pppp qqqq rrrr ssss tttt uuuu"

/-- Document with an all-empty-paragraph article next to a boilerplate div. -/
def cexDoc : List Node := [cexArticle, .elem "div" [] [] [.text cexBoiler]]

/-- Article holding two paragraph elements with real text. -/
def wArticle : Node :=
  .elem "article" [] [] [
    .elem "p" [] [] [.text "First paragraph of the article."],
    .elem "p" [] [] [.text "Second paragraph of the article."]]

/-- Document with that article and an unrelated boilerplate div. -/
def wDoc9 : List Node :=
  [.elem "body" [] [] [wArticle,
     .elem "div" [] [] [.text "unrelated boilerplate text that must stay out of the body"]]]

/-! ## Theorems -/

/-- Claim C1: for every sentiment label and every score in the unit
interval, the breakdown produced by the breakdown-derivation step sums to
1.0 within a tolerance of 0.01 (here the total is 1 exactly), so the
validator carried by every AnalysisRecord accepts it, and so does the
breakdown inside every SentimentModel that analyze_sentiment assembles. -/
theorem breakdown_total_one (s : SentimentType) (score : ℚ)
    (h0 : 0 ≤ score) (h1 : score ≤ 1) :
    (calculateBreakdown s score).total = 1 ∧
    validateBreakdownAccepts (calculateBreakdown s score) ∧
    (∀ lab, validateBreakdownAccepts (analyzeSentimentFrom lab score).breakdown) := by
  have key : ∀ t : SentimentType, (calculateBreakdown t score).total = 1 := by
    intro t
    cases t <;> simp [calculateBreakdown, Breakdown.total] <;> ring
  refine ⟨key s, ?_, fun lab => ?_⟩
  · simp [validateBreakdownAccepts, key s]
  · simp [analyzeSentimentFrom, validateBreakdownAccepts, key]

/-- Witness for C1: the positive label at score 0.95 satisfies the
hypotheses and the validator accepts the derived breakdown. -/
theorem breakdown_total_one_witness :
    (0 : ℚ) ≤ 95/100 ∧ (95/100 : ℚ) ≤ 1 ∧
    validateBreakdownAccepts (calculateBreakdown .positive (95/100)) :=
  ⟨by norm_num, by norm_num,
   (breakdown_total_one .positive (95/100) (by norm_num) (by norm_num)).2.1⟩

/-- Claim C2 counterexample: the neutral label is a canonical sentiment
value and 0.9 is a score in the unit interval, yet the synthetic breakdown
gives the dominant (neutral) bucket the fixed value 0.6, not the raw
score. -/
theorem breakdown_neutral_cex :
    (0 : ℚ) ≤ 9/10 ∧ (9/10 : ℚ) ≤ 1 ∧
    (calculateBreakdown .neutral (9/10)).bucket .neutral ≠ 9/10 := by
  refine ⟨by norm_num, by norm_num, ?_⟩
  norm_num [calculateBreakdown, Breakdown.bucket]

/-- Claim C2 as amended: for the positive and negative labels the dominant
bucket gets the raw score, the neutral bucket gets 60 percent of the
residual and the remaining bucket gets 40 percent of it; the neutral label
instead yields the fixed breakdown 0.6/0.2/0.2; in particular a positive
label with score 0.95 yields positive 0.95, neutral 0.03, negative 0.02,
and the POSITIVE classifier label maps to the positive sentiment. -/
theorem breakdown_dominant_structure (score : ℚ)
    (h0 : 0 ≤ score) (h1 : score ≤ 1) :
    (∀ s : SentimentType, s = .positive ∨ s = .negative →
       (calculateBreakdown s score).bucket s = score ∧
       (calculateBreakdown s score).bucket .neutral = (6/10) * (1 - score) ∧
       (calculateBreakdown s score).bucket (oppositeOf s) = (4/10) * (1 - score)) ∧
    calculateBreakdown .neutral score =
      { neutral := 6/10, positive := 2/10, negative := 2/10 } ∧
    calculateBreakdown .positive (95/100) =
      { positive := 95/100, neutral := 3/100, negative := 2/100 } ∧
    (analyzeSentimentFrom "POSITIVE" (95/100)).sentiment = .positive := by
  refine ⟨?_, rfl, ?_, ?_⟩
  · rintro s (rfl | rfl) <;>
      refine ⟨rfl, ?_, ?_⟩ <;>
      simp [calculateBreakdown, Breakdown.bucket, oppositeOf] <;> ring
  · simp [calculateBreakdown]
    norm_num
  · rfl

/-- Witness for C2 as amended: instantiated at score 0.95, which satisfies
the hypotheses, the positive bucket carries the raw score. -/
theorem breakdown_dominant_structure_witness :
    (0 : ℚ) ≤ 95/100 ∧ (95/100 : ℚ) ≤ 1 ∧
    (calculateBreakdown .positive (95/100)).bucket .positive = 95/100 :=
  ⟨by norm_num, by norm_num,
   ((breakdown_dominant_structure (95/100) (by norm_num) (by norm_num)).1
      .positive (Or.inl rfl)).1⟩

/-- Claim C3: whenever every configuration in the fixed ordered list fails
(an exception, a non-successful status, or an inadequate body all make the
acceptance of that attempt come out empty), fetch_content returns the typed
failure value none — no exception propagates, since the model is a total
function — after exactly three attempts, one per configuration, with no
additional retries. -/
theorem fetch_all_configs_fail (net : FetchApproach → String → AttemptOutcome)
    (url : String)
    (h : ∀ a ∈ approaches, acceptedBody (net a (currentUrl url a)) = none) :
    fetchContent net url = (none, approaches.length) ∧ approaches.length = 3 := by
  have h1 := h { ssl := true, timeout := 15, verifySsl := true, forceHttp := false }
    (by simp [approaches])
  have h2 := h { ssl := true, timeout := 20, verifySsl := false, forceHttp := false }
    (by simp [approaches])
  have h3 := h { ssl := false, timeout := 15, verifySsl := true, forceHttp := true }
    (by simp [approaches])
  refine ⟨?_, rfl⟩
  simp [fetchContent, approaches, fetchLoop, h1, h2, h3]

/-- Witness for C3: a network where every attempt raises yields the failure
value after the three attempts. -/
theorem fetch_all_configs_fail_witness :
    fetchContent (fun _ _ => .exc) "https://example.com" = (none, approaches.length) ∧
    approaches.length = 3 :=
  fetch_all_configs_fail (fun _ _ => .exc) "https://example.com" (fun _ _ => rfl)

/-- Claim C5: a URL whose parse lacks a non-empty scheme or a non-empty
host makes the analyze endpoint fail with the validation error before any
fetch configuration is attempted: the network attempt count of the run
is zero. -/
theorem invalid_url_no_fetch (net : FetchApproach → String → AttemptOutcome)
    (parse : String → List Node) (summ : String → Option String)
    (clf : String → Option (String × ℚ)) (url : String)
    (h : (urlparse url).scheme = "" ∨ (urlparse url).netloc = "") :
    analyzeArticle net parse summ clf url = (.validationError, 0) := by
  unfold analyzeArticle
  rw [if_pos h]

/-- Witness for C5: a scheme-less URL takes the validation branch with zero
network attempts. -/
theorem invalid_url_no_fetch_witness :
    ((urlparse "example.com").scheme = "" ∨ (urlparse "example.com").netloc = "") ∧
    analyzeArticle (fun _ _ => .exc) (fun _ => []) (fun _ => none) (fun _ => none)
      "example.com" = (.validationError, 0) :=
  ⟨Or.inl (by decide),
   invalid_url_no_fetch (fun _ _ => .exc) (fun _ => []) (fun _ => none) (fun _ => none)
     "example.com" (Or.inl (by decide))⟩

/-- Claim C8: the coordinator yields the content error exactly when the
trimmed body is empty or shorter than 50 characters (for every summarizer
and classifier collaborator and every heading); with a trimmed body of
exactly 49 characters it yields the content error and with exactly 50 it
proceeds to the analysis steps. -/
theorem content_gate_iff :
    (∀ summ clf heading body,
       (coordinateContent summ clf heading body = .contentError ↔
         (pyStrip body).length < 50)) ∧
    coordinateContent wSumm wClf "H" wBody49 = .contentError ∧
    coordinateContent wSumm wClf "H" wBody50 ≠ .contentError := by
  refine ⟨?_, by decide, by decide⟩
  intro summ clf heading body
  by_cases h0 : pyStrip body = ""
  · simp [coordinateContent, h0]
  · by_cases h1 : (pyStrip body).length < 50
    · simp [coordinateContent, h0, h1]
    · simp only [coordinateContent, if_neg h0, if_neg h1]
      constructor
      · intro h
        rcases hs : summ (if (pyStrip (takeChars body 1000)).length < 50 then
            takeChars (heading ++ ". " ++ body) 1000 else takeChars body 1000) with _ | s <;>
          rcases hc : clf (if (pyStrip (takeChars body 1000)).length < 50 then
            takeChars (heading ++ ". " ++ body) 1000 else takeChars body 1000) with _ | lr <;>
          simp [hs, hc] at h
      · intro h
        exact absurd h h1

/-- One save leaves at most the capacity in the store. -/
lemma saveMem_length_le (s : List MemRecord) (r : MemRecord) :
    (saveMem s r).length ≤ maxMemoryItems := by
  simp only [saveMem]
  split
  next h => simp [List.length_take]
  next h => omega

/-- One save puts the new record first. -/
lemma saveMem_head (s : List MemRecord) (r : MemRecord) :
    (saveMem s r).head? = some r := by
  simp only [saveMem]
  split
  next h =>
    rw [show maxMemoryItems = 49 + 1 from rfl, List.take_succ_cons]
    rfl
  next h => rfl

/-- One save preserves distinctness of the stored URLs. -/
lemma saveMem_nodup (s : List MemRecord) (r : MemRecord)
    (h : (s.map MemRecord.url).Nodup) :
    ((saveMem s r).map MemRecord.url).Nodup := by
  have hfil : (((s.filter (fun a => a.url ≠ r.url)).map MemRecord.url)).Nodup :=
    h.sublist ((s.filter_sublist).map MemRecord.url)
  have hnotmem : r.url ∉ (s.filter (fun a => a.url ≠ r.url)).map MemRecord.url := by
    simp only [List.mem_map, List.mem_filter, not_exists]
    rintro x ⟨⟨hx, hne⟩, heq⟩
    simp only [decide_not, Bool.not_eq_eq_eq_not, Bool.not_true, decide_eq_false_iff_not] at hne
    exact hne heq
  have hcons : ((r :: s.filter (fun a => a.url ≠ r.url)).map MemRecord.url).Nodup := by
    rw [List.map_cons]
    exact hfil.cons hnotmem
  simp only [saveMem]
  split
  next hlen =>
    rw [List.map_take]
    exact hcons.sublist (List.take_sublist _ _)
  next hlen => exact hcons

/-- Folding saves keeps the capacity bound and the URL distinctness. -/
lemma memFold_inv (rs : List MemRecord) :
    ∀ init : List MemRecord,
      init.length ≤ maxMemoryItems → (init.map MemRecord.url).Nodup →
      (rs.foldl saveMem init).length ≤ maxMemoryItems ∧
      ((rs.foldl saveMem init).map MemRecord.url).Nodup := by
  induction rs with
  | nil => intro init h1 h2; exact ⟨h1, h2⟩
  | cons r rest ih =>
      intro init h1 h2
      simpa using ih (saveMem init r) (saveMem_length_le _ _) (saveMem_nodup _ _ h2)

/-- After a non-empty sequence of saves the head is the last record saved. -/
lemma memFold_head (rs : List MemRecord) (hne : rs ≠ []) :
    ∀ init : List MemRecord, (rs.foldl saveMem init).head? = rs.getLast? := by
  induction rs with
  | nil => cases hne rfl
  | cons r rest ih =>
      intro init
      cases rest with
      | nil => simpa using saveMem_head init r
      | cons r2 rest2 =>
          have hr := ih (by simp) (saveMem init r)
          simpa [List.getLast?_cons_cons] using hr

/-- Claim C10: whatever sequence of save calls runs while the database
collection is unavailable, the in-memory fallback store afterwards holds at
most 50 records, holds at most one record per article URL (a save removes
any same-URL record before inserting), and has the most recently saved
record first (stated through the final state of every save sequence, which
covers the state after every call since every prefix is itself such a
sequence). -/
theorem memory_store_invariant (rs : List MemRecord) :
    (memStateAfter rs).length ≤ maxMemoryItems ∧
    ((memStateAfter rs).map MemRecord.url).Nodup ∧
    (memStateAfter rs).head? = rs.getLast? := by
  have base := memFold_inv rs [] (by simp [maxMemoryItems]) (by simp)
  refine ⟨base.1, base.2, ?_⟩
  cases rs with
  | nil => rfl
  | cons r rest => exact memFold_head (r :: rest) (by simp) []

/-- Claim C4: an attempt is accepted, its body becoming the fetch result
and ending the attempt sequence, exactly when the status code lies in the
set 200, 201, 202 and the body is longer than 500 characters and the
lowercased body holds one of the four structural markers; any other
outcome, an exception included, makes the loop proceed to the next
configuration with the attempt counted. -/
theorem fetch_accepts_iff :
    (∀ st body, acceptedBody (.response st body) = some body ↔
       ((st = 200 ∨ st = 201 ∨ st = 202) ∧ 500 < body.length ∧
        ∃ m ∈ htmlMarkers, listOccurs m.data (lowerStr body).data = true)) ∧
    (∀ net url a rest body, acceptedBody (net a (currentUrl url a)) = some body →
       fetchLoop net url (a :: rest) = (some body, 1)) ∧
    (∀ net url a rest, acceptedBody (net a (currentUrl url a)) = none →
       fetchLoop net url (a :: rest) =
         ((fetchLoop net url rest).1, (fetchLoop net url rest).2 + 1)) := by
  refine ⟨?_, ?_, ?_⟩
  · intro st body
    constructor
    · intro h
      by_cases hst : st ∈ statusOkSet
      · by_cases hc : contentAcceptable body = true
        · rcases (by simpa [contentAcceptable, List.any_eq_true] using hc) with
            ⟨hlen, m, hm, hocc⟩
          exact ⟨by simpa [statusOkSet] using hst, hlen, m, hm, hocc⟩
        · simp [acceptedBody, hst, hc] at h
      · simp [acceptedBody, hst] at h
    · rintro ⟨hst, hlen, m, hm, hocc⟩
      have hmem : st ∈ statusOkSet := by
        simp only [statusOkSet, List.mem_cons, List.not_mem_nil, or_false]
        tauto
      have hc : contentAcceptable body = true := by
        simp only [contentAcceptable, Bool.and_eq_true, decide_eq_true_eq,
          List.any_eq_true]
        exact ⟨hlen, m, hm, hocc⟩
      simp [acceptedBody, hmem, hc]
  · intro net url a rest body h
    simp [fetchLoop, h]
  · intro net url a rest h
    simp [fetchLoop, h]

set_option maxRecDepth 100000 in
/-- Witness for C4: a first attempt answering 200 with an adequate body is
accepted and ends the sequence after one attempt. -/
theorem fetch_accepts_iff_witness :
    fetchLoop (fun _ _ => .response 200 wOkBody) "https://example.com"
      approaches = (some wOkBody, 1) := by
  have step := fetch_accepts_iff.2.1 (fun _ _ => .response 200 wOkBody)
    "https://example.com"
    { ssl := true, timeout := 15, verifySsl := true, forceHttp := false }
    [{ ssl := true, timeout := 20, verifySsl := false, forceHttp := false },
     { ssl := false, timeout := 15, verifySsl := true, forceHttp := true }]
    wOkBody (by decide)
  simpa [approaches] using step

/-- Fallback heading scan returns the sentinel when for every selector the
first match has empty text. -/
lemma headingFromFallback_all_empty (doc : List Node) (ss : List Selector)
    (h : ∀ x ∈ ss, textOfOpt (selectOneList x doc) = "") :
    headingFromFallback doc ss = "No Heading" := by
  induction ss with
  | nil => rfl
  | cons y ys ih =>
      simp only [headingFromFallback]
      rw [if_pos (h y (by simp))]
      exact ih fun x hx => h x (by simp [hx])

/-- Fallback heading scan stops at the first selector whose first match has
non-empty text. -/
lemma headingFromFallback_first (doc : List Node) (pre : List Selector)
    (s : Selector) (post : List Selector)
    (hpre : ∀ x ∈ pre, textOfOpt (selectOneList x doc) = "")
    (hs : textOfOpt (selectOneList s doc) ≠ "") :
    headingFromFallback doc (pre ++ s :: post) = textOfOpt (selectOneList s doc) := by
  induction pre with
  | nil =>
      simp only [List.nil_append, headingFromFallback]
      rw [if_neg hs]
  | cons y ys ih =>
      simp only [List.cons_append, headingFromFallback]
      rw [if_pos (hpre y (by simp))]
      exact ih fun x hx => hpre x (by simp [hx])

/-- Claim C6: heading selection tries, in priority order with the first
non-empty text winning, the first h1 element, then the title element, then
the fallback selector list h2, h3, class title, class headline, data-testid
headline; and when none of these yields non-empty text the extractor
returns exactly the sentinel. -/
theorem heading_priority (d : List Node) :
    (textOfOpt (selectOneList (.tag "h1") (cleanList d)) ≠ "" →
       selectHeading (cleanList d) =
         textOfOpt (selectOneList (.tag "h1") (cleanList d))) ∧
    (textOfOpt (selectOneList (.tag "h1") (cleanList d)) = "" →
       textOfOpt (selectOneList (.tag "title") (cleanList d)) ≠ "" →
       selectHeading (cleanList d) =
         textOfOpt (selectOneList (.tag "title") (cleanList d))) ∧
    (∀ pre s post, fallbackSelectors = pre ++ s :: post →
       textOfOpt (selectOneList (.tag "h1") (cleanList d)) = "" →
       textOfOpt (selectOneList (.tag "title") (cleanList d)) = "" →
       (∀ x ∈ pre, textOfOpt (selectOneList x (cleanList d)) = "") →
       textOfOpt (selectOneList s (cleanList d)) ≠ "" →
       selectHeading (cleanList d) = textOfOpt (selectOneList s (cleanList d))) ∧
    (textOfOpt (selectOneList (.tag "h1") (cleanList d)) = "" →
       textOfOpt (selectOneList (.tag "title") (cleanList d)) = "" →
       (∀ x ∈ fallbackSelectors, textOfOpt (selectOneList x (cleanList d)) = "") →
       (extractContent d).heading = "No Heading") := by
  refine ⟨?_, ?_, ?_, ?_⟩
  · intro h1
    simp only [selectHeading]
    rw [if_pos h1]
  · intro h1 h2
    simp only [selectHeading]
    rw [if_neg (not_not.mpr h1), if_pos h2]
  · intro pre s post hsplit h1 h2 hpre hs
    simp only [selectHeading]
    rw [if_neg (not_not.mpr h1), if_neg (not_not.mpr h2), hsplit]
    exact headingFromFallback_first (cleanList d) pre s post hpre hs
  · intro h1 h2 hall
    have hsel : selectHeading (cleanList d) = "No Heading" := by
      simp only [selectHeading]
      rw [if_neg (not_not.mpr h1), if_neg (not_not.mpr h2)]
      exact headingFromFallback_all_empty (cleanList d) fallbackSelectors hall
    simp only [extractContent]
    rw [hsel]
    decide

/-- Witness for C6: one document per priority level, plus one with no
heading-bearing element at all. -/
theorem heading_priority_witness :
    selectHeading (cleanList wDocH1) = "Main Headline" ∧
    selectHeading (cleanList wDocTitle) = "Doc Title" ∧
    selectHeading (cleanList wDocH2) = "Second Level" ∧
    (extractContent wDocPlain).heading = "No Heading" := by
  refine ⟨?_, ?_, ?_, ?_⟩
  · rw [(heading_priority wDocH1).1 (by decide)]
    decide
  · rw [(heading_priority wDocTitle).2.1 (by decide) (by decide)]
    decide
  · rw [(heading_priority wDocH2).2.2.1 [] (.tag "h2")
        [.tag "h3", .cls "title", .cls "headline", .attrEq "data-testid" "headline"]
        rfl (by decide) (by decide) (by simp) (by decide)]
    decide
  · exact (heading_priority wDocPlain).2.2.2 (by decide) (by decide) (by decide)

/-- Claim C7: a selected heading longer than 200 characters comes back as
exactly its first 200 characters followed by the ellipsis marker, and a
selected heading of at most 200 characters comes back unmodified. -/
theorem heading_truncated (d : List Node) :
    (200 < (selectHeading (cleanList d)).length →
       (extractContent d).heading =
         takeChars (selectHeading (cleanList d)) 200 ++ "..." ∧
       (takeChars (selectHeading (cleanList d)) 200).length = 200) ∧
    ((selectHeading (cleanList d)).length ≤ 200 →
       (extractContent d).heading = selectHeading (cleanList d)) := by
  constructor
  · intro h
    constructor
    · simp only [extractContent, truncateHeading]
      rw [if_pos h]
    · have e : (takeChars (selectHeading (cleanList d)) 200).length
          = ((selectHeading (cleanList d)).data.take 200).length := rfl
      have e2 : (selectHeading (cleanList d)).length
          = (selectHeading (cleanList d)).data.length := rfl
      rw [e2] at h
      rw [e, List.length_take]
      omega
  · intro h
    simp only [extractContent, truncateHeading]
    rw [if_neg (by omega)]

set_option maxRecDepth 100000 in
/-- Witness for C7: a 201-character title is truncated to 200 characters
plus the marker. -/
theorem heading_truncated_witness :
    200 < (selectHeading (cleanList wDocLong)).length ∧
    (extractContent wDocLong).heading =
      takeChars (selectHeading (cleanList wDocLong)) 200 ++ "..." :=
  ⟨by decide, ((heading_truncated wDocLong).1 (by decide)).1⟩

/-- The inner article scan picks the first container with at least two
paragraph elements and yields its non-empty paragraph texts. -/
lemma tryArticles_eq_find (l : List Node) :
    tryArticles l =
      (l.find? (fun x => decide (2 ≤ (descendantsTag "p" x).length))).map
        nonemptyPTexts := by
  induction l with
  | nil => rfl
  | cons a rest ih =>
      by_cases h : 2 ≤ (descendantsTag "p" a).length
      · simp [tryArticles, List.find?_cons, h]
      · simp [tryArticles, List.find?_cons, h, ih]

/-- Claim C9 counterexample: a document holding an article element with two
paragraph elements next to an unrelated boilerplate div, where both
paragraph texts are empty, makes the extractor fall through to the div
strategy: the returned body is the boilerplate text, not the (empty)
concatenation of the non-empty paragraph texts of the article. -/
theorem article_container_cex :
    (∃ x ∈ selectList (.tag "article") (cleanList cexDoc),
       2 ≤ (descendantsTag "p" x).length ∧ nonemptyPTexts x = []) ∧
    (extractContent cexDoc).body = cexBoiler ∧ cexBoiler ≠ "" := by
  exact ⟨by decide, by decide, by decide⟩

/-- Claim C9 as amended: whenever the first article container (in the
scan order of the article selector) holding at least two paragraph elements
contributes at least one non-empty paragraph text, the extracted body is
exactly the cleaned concatenation of the non-empty paragraph texts of that
container — the paragraph-wide and div-wide fallback strategies are not
applied, so no unrelated div text enters the body. -/
theorem article_container_wins (d : List Node) (a : Node)
    (hfind : (selectList (.tag "article") (cleanList d)).find?
        (fun x => decide (2 ≤ (descendantsTag "p" x).length)) = some a)
    (hne : nonemptyPTexts a ≠ []) :
    (extractContent d).body =
      cleanText (String.intercalate " " (nonemptyPTexts a)) := by
  have h1 : tryArticles (selectList (.tag "article") (cleanList d)) =
      some (nonemptyPTexts a) := by
    rw [tryArticles_eq_find, hfind]
    rfl
  have h2 : bodyFromSelectors (cleanList d) articleSelectors = nonemptyPTexts a := by
    simp [articleSelectors, bodyFromSelectors, h1, hne]
  simp [extractContent, extractBodyParts, h2, hne]

/-- Witness for C9 as amended: an article with two real paragraphs next to
an unrelated boilerplate div yields exactly the article paragraphs. -/
theorem article_container_wins_witness :
    (extractContent wDoc9).body =
      cleanText (String.intercalate " " (nonemptyPTexts wArticle)) ∧
    (extractContent wDoc9).body =
      "First paragraph of the article. Second paragraph of the article." :=
  ⟨article_container_wins wDoc9 wArticle (by rfl) (by decide), by decide⟩
